import Mathlib

/-!
Shallow embedding of `start.py` (spacemusic repository): a minimal process
supervisor that spawns one external command (`npm run dev`), relays its
streams, waits for its exit, and guarantees termination of the child on
SIGINT/SIGTERM.

The embedding makes the operating-system interaction explicit:
- a `Proc` value models the `subprocess.Popen` handle held in
  `self.process`, with `hasExited` standing for "an exit status is
  available to `poll()`";
- an `Event` trace records every observable side effect (prints to
  stdout/stderr, chdir, signal registration, spawn, terminate, waits,
  kill, `sys.exit`);
- a `RunEnv` value fixes the outcome the operating system gives to the
  spawn/wait performed inside `run()` (success with a given child,
  `FileNotFoundError` at spawn, or another exception at spawn or at wait).
-/

namespace SpaceMusic

/-- The two signals registered in `__init__`. -/
inductive Sig where
  | sigint
  | sigterm
deriving DecidableEq, Repr

/-- Observable side effects of the supervisor, in program order. -/
inductive Event where
  | printOut (s : String)
  | printErr (s : String)
  | chdir (dir : String)
  | registerHandler (s : Sig)
  | spawn (cmd : List String) (cwd : String) (stdoutToParent : Bool) (stderrToParent : Bool)
  | terminate (pid : Nat)
  | waitTimeout (pid : Nat) (secs : Nat)
  | kill (pid : Nat)
  | wait (pid : Nat)
  | sysExit (code : Nat)
deriving DecidableEq, Repr

/-- Behaviour the operating system assigns to a successfully spawned child:
its pid, the return code `wait()` eventually delivers, and whether it exits
within the 5-second grace period after `terminate()`. -/
structure ChildSpec where
  pid : Nat
  retcode : Int
  exitsWithinTimeout : Bool
deriving DecidableEq, Repr

/-- The `subprocess.Popen` handle stored in `self.process`. `hasExited`
means `poll()` returns a status (the child's exit is observable). -/
structure Proc where
  pid : Nat
  hasExited : Bool
  retcode : Int
  exitsWithinTimeout : Bool
deriving DecidableEq, Repr

/-- `Popen.poll()`: non-blocking; `none` while the child is alive. -/
def Proc.poll (p : Proc) : Option Int :=
  if p.hasExited then some p.retcode else none

/-- The handle right after `subprocess.Popen(...)` returns. -/
def spawnProc (c : ChildSpec) : Proc :=
  { pid := c.pid, hasExited := false, retcode := c.retcode,
    exitsWithinTimeout := c.exitsWithinTimeout }

/-- A handle whose exit status has become available. -/
def markExited (p : Proc) : Proc :=
  { p with hasExited := true }

/-- Supervisor state: `self.script_dir` and `self.process`. -/
structure Starter where
  script_dir : String
  process : Option Proc
deriving DecidableEq, Repr

/-- `__init__`: resolves the script directory and leaves `self.process`
set to `None`. -/
def initState (d : String) : Starter :=
  { script_dir := d, process := none }

/-- Side effects of `__init__`: `os.chdir` and the two `signal.signal`
registrations. -/
def initEvents (d : String) : List Event :=
  [Event.chdir d, Event.registerHandler Sig.sigint, Event.registerHandler Sig.sigterm]

/-- `is_process_running`: `False` if `self.process is None`, otherwise
`self.process.poll() is None`. -/
def is_process_running (st : Starter) : Bool :=
  match st.process with
  | none => false
  | some p => p.poll.isNone

/-- `cleanup`: terminate the dev server process if it is running.
Guarded by `if self.process and self.is_process_running()`; then
`terminate()`, `wait(timeout=5)`, and on `TimeoutExpired` escalation to
`kill()` followed by an unbounded `wait()`. Returns the new state and the
event trace. -/
def cleanup (st : Starter) : Starter × List Event :=
  match st.process with
  | none => (st, [])
  | some p =>
    if p.poll.isNone then
      let pre := [Event.printOut ("Stopping dev server (PID: " ++ toString p.pid ++ ")..."),
                  Event.terminate p.pid]
      if p.exitsWithinTimeout then
        ({ st with process := some (markExited p) },
         pre ++ [Event.waitTimeout p.pid 5])
      else
        ({ st with process := some (markExited p) },
         pre ++ [Event.waitTimeout p.pid 5, Event.kill p.pid, Event.wait p.pid])
    else
      (st, [])

/-- Result of `_cleanup_handler`: the state after cleanup, the process
exit code passed to `sys.exit`, and the event trace. -/
structure HandlerOut where
  state : Starter
  exitCode : Nat
  events : List Event
deriving DecidableEq, Repr

/-- `_cleanup_handler(signum, frame)`: print, `cleanup()`, `sys.exit(0)`.
`SystemExit` is not caught by the `except Exception` clause in `run`, so
the code given to `sys.exit` is the parent's process exit code. -/
def cleanup_handler (st : Starter) (signum : Nat) : HandlerOut :=
  { state := (cleanup st).1,
    exitCode := 0,
    events := Event.printOut "\nShutting down..." :: (cleanup st).2 ++ [Event.sysExit 0] }

/-- A Python exception escaping the spawn/wait in `run`:
`FileNotFoundError`, or any other `Exception` with its description. -/
inductive PyExn where
  | fileNotFound
  | other (msg : String)
deriving DecidableEq, Repr

/-- Outcome the operating system gives to the body of `run`'s `try` block:
success, an exception raised by `subprocess.Popen`, or an exception raised
by `self.process.wait()` after a successful spawn (with the poll status of
the child at that point). -/
inductive RunEnv where
  | ok (c : ChildSpec)
  | spawnExn (e : PyExn)
  | waitExn (c : ChildSpec) (exited : Bool) (e : PyExn)
deriving DecidableEq, Repr

/-- The fixed argument list passed to `subprocess.Popen`. -/
def runCommand : List String :=
  ["npm", "run", "dev"]

/-- The three status lines printed at the top of `run`. -/
def preMessages (st : Starter) : List Event :=
  [Event.printOut ("Starting Space Music from: " ++ st.script_dir),
   Event.printOut "Running: npm run dev",
   Event.printOut "To stop the server and exit: press Ctrl+C in this terminal (not \x27q\x27).\n"]

/-- The state right after `self.process = subprocess.Popen(...)` succeeds. -/
def spawnedState (st : Starter) (c : ChildSpec) : Starter :=
  { st with process := some (spawnProc c) }

/-- The diagnostic each `except` clause of `run` prints to `sys.stderr`. -/
def exnMessage : PyExn → String
  | PyExn.fileNotFound => "Error: npm not found. Ensure Node.js and npm are installed."
  | PyExn.other msg => "Error starting dev server: " ++ msg

/-- Result of `run`: final state, returned exit code, event trace. -/
structure RunOut where
  state : Starter
  code : Int
  events : List Event
deriving DecidableEq, Repr

/-- `run`: print the status lines, spawn `npm run dev` in `script_dir`
with the child's stdout/stderr connected to the parent's, and block in
`wait()` for the child's exit code; `FileNotFoundError` and any other
`Exception` are caught, reported to stderr, and turned into return 1. -/
def run (st : Starter) (env : RunEnv) : RunOut :=
  let pre := preMessages st
  match env with
  | RunEnv.ok c =>
    { state := { spawnedState st c with process := some (markExited (spawnProc c)) },
      code := c.retcode,
      events := pre ++ [Event.spawn runCommand st.script_dir true true, Event.wait c.pid] }
  | RunEnv.spawnExn e =>
    { state := st,
      code := 1,
      events := pre ++ [Event.printErr (exnMessage e)] }
  | RunEnv.waitExn c exited e =>
    { state := { spawnedState st c with
                   process := some { spawnProc c with hasExited := exited } },
      code := 1,
      events := pre ++ [Event.spawn runCommand st.script_dir true true,
                        Event.printErr (exnMessage e)] }

/-- `main()`: construct the starter (`__init__` effects) and run it; the
full event trace of the program for a given environment. -/
def mainEvents (d : String) (env : RunEnv) : List Event :=
  initEvents d ++ (run (initState d) env).events

/-- Recogniser for spawn events, to count process creations in a trace. -/
def isSpawnEvent : Event → Bool
  | Event.spawn _ _ _ _ => true
  | _ => false

/-- Helper: `cleanup` never replaces or duplicates the stored handle — the
pid of the process field is unchanged by every branch. -/
theorem cleanup_preserves_pid (st : Starter) :
    ((cleanup st).1).process.map Proc.pid = st.process.map Proc.pid := by
  rcases st with ⟨d, _ | p⟩
  · rfl
  · show ((cleanup ⟨d, some p⟩).1).process.map Proc.pid = some p.pid
    unfold cleanup
    dsimp only
    split
    · split <;> rfl
    · rfl

/-- Claim C1: for every invocation of `run` in which the spawn succeeds and
the child exits naturally, `run` blocks in `wait()` for the child's exit
(the trace ends with the blocking wait on the child's pid) and returns
exactly the child's own exit code. -/
theorem run_returns_child_exit_code (st : Starter) (c : ChildSpec) :
    (run st (RunEnv.ok c)).code = c.retcode ∧
    (run st (RunEnv.ok c)).events =
      preMessages st ++ [Event.spawn runCommand st.script_dir true true, Event.wait c.pid] :=
  ⟨rfl, rfl⟩

/-- Claim C2: whenever the supervisor exits via the signal-triggered
shutdown path, the parent process terminates with exit code 0, for every
state (regardless of how the child exited or whether it had to be killed)
and for either signal. -/
theorem handler_exits_zero (st : Starter) (signum : Nat) :
    (cleanup_handler st signum).exitCode = 0 ∧
    (cleanup_handler st signum).events.getLast? = some (Event.sysExit 0) := by
  refine ⟨rfl, ?_⟩
  show (Event.printOut "\nShutting down..." :: ((cleanup st).2 ++ [Event.sysExit 0])).getLast?
        = some (Event.sysExit 0)
  rw [← List.cons_append, List.getLast?_concat]

/-- Claim C3: for every call to `cleanup` while the child is still running,
the trace is exactly terminate, then bounded wait (5 units), then — only
when the timeout expires — kill followed by an unbounded wait; nothing is
skipped or reordered. -/
theorem cleanup_running_sequence (d : String) (pid : Nat) (rc : Int) :
    cleanup { script_dir := d,
              process := some { pid := pid, hasExited := false, retcode := rc,
                                exitsWithinTimeout := true } } =
      ({ script_dir := d,
         process := some { pid := pid, hasExited := true, retcode := rc,
                           exitsWithinTimeout := true } },
       [Event.printOut ("Stopping dev server (PID: " ++ toString pid ++ ")..."),
        Event.terminate pid, Event.waitTimeout pid 5]) ∧
    cleanup { script_dir := d,
              process := some { pid := pid, hasExited := false, retcode := rc,
                                exitsWithinTimeout := false } } =
      ({ script_dir := d,
         process := some { pid := pid, hasExited := true, retcode := rc,
                           exitsWithinTimeout := false } },
       [Event.printOut ("Stopping dev server (PID: " ++ toString pid ++ ")..."),
        Event.terminate pid, Event.waitTimeout pid 5, Event.kill pid, Event.wait pid]) :=
  ⟨rfl, rfl⟩

/-- Claim C4: `cleanup` is idempotent — with no child ever spawned, or with
a child that has already exited, it leaves the state unchanged and emits no
event (in particular no termination request), and a second call in
succession does the same. -/
theorem cleanup_idempotent (d : String) (pid : Nat) (rc : Int) (tmo : Bool) :
    cleanup { script_dir := d, process := none } =
      ({ script_dir := d, process := none }, ([] : List Event)) ∧
    cleanup { script_dir := d,
              process := some { pid := pid, hasExited := true, retcode := rc,
                                exitsWithinTimeout := tmo } } =
      ({ script_dir := d,
         process := some { pid := pid, hasExited := true, retcode := rc,
                           exitsWithinTimeout := tmo } }, ([] : List Event)) ∧
    cleanup (cleanup { script_dir := d, process := none }).1 =
      ({ script_dir := d, process := none }, ([] : List Event)) ∧
    cleanup (cleanup { script_dir := d,
                       process := some { pid := pid, hasExited := true, retcode := rc,
                                         exitsWithinTimeout := tmo } }).1 =
      ({ script_dir := d,
         process := some { pid := pid, hasExited := true, retcode := rc,
                           exitsWithinTimeout := tmo } }, ([] : List Event)) :=
  ⟨rfl, rfl, rfl, rfl⟩

/-- Claim C5: when the external program cannot be located or executed
(`FileNotFoundError` escaping the spawn), `run` returns 1 and writes a
diagnostic mentioning the missing dependency (`npm`) to the error stream,
returning normally rather than propagating the fault. -/
theorem run_file_not_found (st : Starter) :
    (run st (RunEnv.spawnExn PyExn.fileNotFound)).code = 1 ∧
    Event.printErr (exnMessage PyExn.fileNotFound)
      ∈ (run st (RunEnv.spawnExn PyExn.fileNotFound)).events ∧
    exnMessage PyExn.fileNotFound =
      "Error: " ++ "npm" ++ " not found. Ensure Node.js and npm are installed." := by
  refine ⟨rfl, ?_, rfl⟩
  simp [run, preMessages]

/-- Claim C6: every fault other than the program-not-found case, raised at
spawn or at wait, is caught: `run` writes the fault's description to the
error stream and returns exit code 1 instead of propagating. -/
theorem run_generic_fault (st : Starter) (msg : String) (c : ChildSpec) (b : Bool) :
    (run st (RunEnv.spawnExn (PyExn.other msg))).code = 1 ∧
    Event.printErr ("Error starting dev server: " ++ msg)
      ∈ (run st (RunEnv.spawnExn (PyExn.other msg))).events ∧
    (run st (RunEnv.waitExn c b (PyExn.other msg))).code = 1 ∧
    Event.printErr ("Error starting dev server: " ++ msg)
      ∈ (run st (RunEnv.waitExn c b (PyExn.other msg))).events := by
  refine ⟨rfl, ?_, rfl, ?_⟩ <;> simp [run, preMessages, exnMessage]

/-- Claim C7: `is_process_running` is false before any spawn, true
immediately after a successful spawn, and in every state with a handle it
is exactly the non-blocking poll reporting no exit status yet
(equivalently: the child has not exited). -/
theorem is_running_poll_semantics (d : String) (st : Starter) (c : ChildSpec) (p : Proc) :
    is_process_running (initState d) = false ∧
    is_process_running (spawnedState st c) = true ∧
    is_process_running { script_dir := d, process := some p } = p.poll.isNone ∧
    is_process_running { script_dir := d, process := some p } = !p.hasExited := by
  refine ⟨rfl, rfl, rfl, ?_⟩
  rcases p with ⟨pid, he, rc, t⟩
  cases he <;> rfl

/-- Claim C8: the handle lifecycle invariant — the handle is `none` at
initialization, populated with the single spawned child by `run`, marked
dead once `wait()` confirms termination, never replaced or duplicated by
`cleanup`, and the whole program performs exactly one spawn. -/
theorem handle_lifecycle_invariant (d : String) (st : Starter) (c : ChildSpec) :
    (initState d).process = none ∧
    (spawnedState st c).process = some (spawnProc c) ∧
    (run st (RunEnv.ok c)).state.process = some (markExited (spawnProc c)) ∧
    ((cleanup st).1).process.map Proc.pid = st.process.map Proc.pid ∧
    (mainEvents d (RunEnv.ok c)).countP isSpawnEvent = 1 := by
  refine ⟨rfl, rfl, rfl, cleanup_preserves_pid st, ?_⟩
  simp [mainEvents, run, initEvents, preMessages, isSpawnEvent, List.countP_cons,
        List.countP_append]

/-- Claim C9 counterexample: the spawned command is not a two-token
command — `run` spawns `npm run dev`, whose token list has length 3. -/
theorem run_command_not_two_tokens :
    runCommand.length ≠ 2 ∧
    Event.spawn runCommand "d" true true
      ∈ (run (initState "d") (RunEnv.ok { pid := 1, retcode := 0,
                                          exitsWithinTimeout := true })).events := by
  constructor
  · decide
  · simp [run, initState, preMessages]

/-- Claim C9 (amended): the external command `run` spawns is the fixed
three-token command `npm run dev` (program name plus two fixed arguments),
launched with the working directory set to the resolved script directory
and with the child's stdout and stderr connected to the parent's streams;
it is the only spawn in the trace. -/
theorem run_spawns_fixed_command (st : Starter) (c : ChildSpec) :
    (run st (RunEnv.ok c)).events.filter isSpawnEvent =
      [Event.spawn runCommand st.script_dir true true] ∧
    runCommand = ["npm", "run", "dev"] ∧
    runCommand.length = 3 :=
  ⟨rfl, rfl, rfl⟩

/-- Claim C10: when process creation raises, the assignment to the handle
never happens — the error branch of `run` returns the state unchanged, so
starting from the pre-spawn state `is_process_running` is still false and
`cleanup` is still a no-op. -/
theorem spawn_fault_leaves_state (st : Starter) (e : PyExn) (d : String) :
    (run st (RunEnv.spawnExn e)).state = st ∧
    is_process_running (run (initState d) (RunEnv.spawnExn e)).state = false ∧
    cleanup (run (initState d) (RunEnv.spawnExn e)).state = (initState d, ([] : List Event)) :=
  ⟨rfl, rfl, rfl⟩

end SpaceMusic
